import Mathlib

/-!
# AI-Coach motion-analysis pipeline: a shallow embedding

This file embeds the motion-analysis core of the AI-Coach repository in
Lean 4 and proves the testable properties stated in its specification.

The embedded code consists of:
* `calculateAngle` and `getJointAngles` (src/services/poseUtils.ts): the
  joint-angle extractor;
* `detectExercisePhase` (src/services/poseUtils.ts): the raw per-frame
  phase classifier;
* the phase-stabilization / repetition-counter state machine of the
  `processPoseRef` frame callback and the `endSession` reset (App
  component).

Conventions of the embedding:
* JavaScript numbers holding landmark coordinates, history samples and
  thresholds are embedded as exact rationals (`ℚ`); the trigonometric
  angle computations are embedded over the real numbers (`ℝ`), with
  `Math.atan2` modelled by the argument of a complex number (range
  `(-π, π]`, the mathematical semantics of `atan2`).
* A possibly-absent array element (`undefined` in JavaScript) is an
  `Option`; reading `.y` from an `undefined` value, which throws a
  `TypeError` at runtime, is embedded as `Except.error`.
* `Date.now()` timestamps are integers (milliseconds).
-/

/-- A MediaPipe pose landmark (src/types.ts `Landmark`). -/
structure Landmark where
  x : ℚ
  y : ℚ
  z : ℚ
  visibility : Option ℚ := none
deriving DecidableEq

/-- The exercise kinds of src/types.ts `ExerciseType`. -/
inductive ExerciseType where
  | SQUAT | DEADLIFT | OVERHEAD_PRESS | BENCH_PRESS | PUSH_UP
  | PULL_UP | KNEE_ELEVATION | ROWING | CUSTOM
deriving DecidableEq

/-- The raw / confirmed exercise phases returned by `detectExercisePhase`. -/
inductive Phase where
  | descending | ascending | bottom | top | standing
deriving DecidableEq

/-- Array indexing `landmarks[i]` on a JavaScript array whose entries may
themselves be `undefined`: out-of-range access yields `undefined` (`none`)
rather than throwing. -/
def getLm (landmarks : List (Option Landmark)) (i : ℕ) : Option Landmark :=
  (landmarks.get? i).join

/-- The JavaScript `list.slice(-n)`: the last `n` elements (the whole list when it is
shorter than `n`). -/
def lastN (n : ℕ) (l : List α) : List α :=
  l.drop (l.length - n)

/-- The buffer update `buf.push(x); if (buf.length > cap) buf.shift();` — append one element
and evict the oldest when the capacity is exceeded. -/
def pushCapped (cap : ℕ) (l : List α) (x : α) : List α :=
  let l' := l ++ [x]
  if cap < l'.length then l'.drop 1 else l'

/-- JavaScript `Math.round`: half-integers round toward `+∞`. -/
noncomputable def jsRound (x : ℝ) : ℝ :=
  ((⌊x + 1/2⌋ : ℤ) : ℝ)

/-- JavaScript `Math.atan2(y, x)`: the argument of the point `(x, y)`,
in `(-π, π]`. -/
noncomputable def atan2 (y x : ℝ) : ℝ :=
  Complex.arg ⟨x, y⟩

/-- The record returned by `getJointAngles` (src/types.ts `JointAngles`). -/
structure JointAngles where
  leftKnee : ℝ
  rightKnee : ℝ
  leftHip : ℝ
  rightHip : ℝ
  leftElbow : ℝ
  rightElbow : ℝ
  backAngle : ℝ

/-- src/services/poseUtils.ts `calculateAngle`: the unsigned interior
angle at vertex `p2`, degenerate inputs (`undefined` landmarks) yielding
`0`. -/
noncomputable def calculateAngle (p1 p2 p3 : Option Landmark) : ℝ :=
  match p1, p2, p3 with
  | some a, some b, some c =>
    let radians :=
      atan2 ((c.y : ℝ) - (b.y : ℝ)) ((c.x : ℝ) - (b.x : ℝ)) -
        atan2 ((a.y : ℝ) - (b.y : ℝ)) ((a.x : ℝ) - (b.x : ℝ))
    let angle := |radians * 180 / Real.pi|
    let angle := if 180 < angle then 360 - angle else angle
    jsRound angle
  | _, _, _ => 0

/-- src/services/poseUtils.ts `getJointAngles`.  The six joint angles go
through the `undefined`-guarded `calculateAngle`; the trunk-lean
computation (`backAngle`) dereferences `landmarks[11].y` and
`landmarks[23].y` without any guard, so a frame missing either landmark
makes the function throw a `TypeError`, embedded as `Except.error`. -/
noncomputable def getJointAngles (landmarks : List (Option Landmark)) :
    Except String JointAngles :=
  let leftKnee := calculateAngle (getLm landmarks 23) (getLm landmarks 25) (getLm landmarks 27)
  let rightKnee := calculateAngle (getLm landmarks 24) (getLm landmarks 26) (getLm landmarks 28)
  let leftHip := calculateAngle (getLm landmarks 11) (getLm landmarks 23) (getLm landmarks 25)
  let rightHip := calculateAngle (getLm landmarks 12) (getLm landmarks 24) (getLm landmarks 26)
  let leftElbow := calculateAngle (getLm landmarks 11) (getLm landmarks 13) (getLm landmarks 15)
  let rightElbow := calculateAngle (getLm landmarks 12) (getLm landmarks 14) (getLm landmarks 16)
  match getLm landmarks 11, getLm landmarks 23 with
  | some s11, some h23 =>
    let backAngle :=
      |atan2 ((s11.y : ℝ) - (h23.y : ℝ)) ((s11.x : ℝ) - (h23.x : ℝ)) * 180 / Real.pi| - 90
    Except.ok
      { leftKnee := leftKnee, rightKnee := rightKnee, leftHip := leftHip,
        rightHip := rightHip, leftElbow := leftElbow, rightElbow := rightElbow,
        backAngle := jsRound backAngle }
  | _, _ => Except.error "TypeError"

/-- The `avgVelocity` computation of `detectExercisePhase`:
`const lastFew = history.slice(-5);
 (lastFew[lastFew.length - 1] - lastFew[0]) / lastFew.length`. -/
def avgVelocityOf (history : List ℚ) : ℚ :=
  let lastFew := lastN 5 history
  (lastFew.getLastD 0 - lastFew.headD 0) / (lastFew.length : ℚ)

/-- src/services/poseUtils.ts `detectExercisePhase`.  The hip-, shoulder-
and head-tracked branches dereference the `.y` of specific landmarks
without a guard, which is a `TypeError` (`Except.error`) when those
landmarks are `undefined`; the remaining exercise kinds (including
`ROWING`) fall through to the `default` branch and report `standing`. -/
def detectExercisePhase (landmarks : List (Option Landmark))
    (history : List ℚ) (exercise : ExerciseType) : Except String Phase :=
  if history.length < 5 then Except.ok Phase.standing
  else
    let avgVelocity := avgVelocityOf history
    match exercise with
    | .SQUAT | .DEADLIFT | .KNEE_ELEVATION =>
      match getLm landmarks 23, getLm landmarks 24 with
      | some l23, some l24 =>
        let hipY := (l23.y + l24.y) / 2
        if |avgVelocity| < 1/1000 ∧ hipY > 3/5 then Except.ok Phase.bottom
        else if avgVelocity > 1/500 then Except.ok Phase.descending
        else Except.ok Phase.ascending
      | _, _ => Except.error "TypeError"
    | .PUSH_UP | .BENCH_PRESS =>
      match getLm landmarks 11, getLm landmarks 12 with
      | some l11, some l12 =>
        let shoulderY := (l11.y + l12.y) / 2
        if |avgVelocity| < 1/1000 ∧ shoulderY > 1/2 then Except.ok Phase.bottom
        else if avgVelocity > 1/500 then Except.ok Phase.descending
        else Except.ok Phase.ascending
      | _, _ => Except.error "TypeError"
    | .PULL_UP =>
      match getLm landmarks 0 with
      | some l0 =>
        let chinY := l0.y
        if |avgVelocity| < 1/1000 ∧ chinY < 3/10 then Except.ok Phase.top
        else if avgVelocity < -(1/500) then Except.ok Phase.ascending
        else Except.ok Phase.descending
      | none => Except.error "TypeError"
    | _ => Except.ok Phase.standing

/-! ## The phase-stabilization / repetition-counter state machine

Embedding of the stateful part of the `processPoseRef` frame callback:
the mutable cells `repCount`, `confirmedPhaseRef`, `lastRepTimeRef`,
`phaseHistoryRef` and `hipHistoryRef` become the fields of `CoachState`,
and one frame of the vote / count logic becomes the `stepVote`
function, parametrized by the raw detected phase of the frame and the
frame's `Date.now()` timestamp. -/

/-- The mutable session state of the rep counter. -/
structure CoachState where
  repCount : ℕ
  confirmedPhase : Phase
  lastRepTime : ℤ
  phaseHistory : List Phase
  hipHistory : List ℚ
deriving DecidableEq

/-- The initial state: count 0, `confirmedPhase = 'standing'`,
`lastRepTimeRef = 0`, empty buffers. -/
def initState : CoachState :=
  { repCount := 0, confirmedPhase := Phase.standing, lastRepTime := 0,
    phaseHistory := [], hipHistory := [] }

/-- The insertion-order key list of the `phaseCount` tally object
(`Object.entries` enumerates keys in order of first insertion). -/
def entriesOrder (recent : List Phase) : List Phase :=
  recent.foldl (fun acc p => if p ∈ acc then acc else acc ++ [p]) []

/-- The stable-phase computation on the last-5 vote slice:
tally the phases, keep only the `'top'` / `'bottom'` entries, and find
the first whose tally is `≥ 3`. -/
def stableOf (recent : List Phase) : Option Phase :=
  ((entriesOrder recent).filter
      (fun p => p = Phase.top ∨ p = Phase.bottom)).find?
    (fun p => decide (3 ≤ recent.count p))

/-- The stable phase resulting from pushing the detected phase of this
frame into the vote buffer: `none` while the buffer holds fewer than 4
samples (the startup guard) or when no candidate reaches a tally of 3
among the last 5 votes. -/
def stableAfter (s : CoachState) (detected : Phase) : Option Phase :=
  let ph := pushCapped 6 s.phaseHistory detected
  if 4 ≤ ph.length then stableOf (lastN 5 ph) else none

/-- One frame of the vote / rep-count logic of `processPoseRef` (the
part below the `detectExercisePhase` call).  The returned `Bool` is
`true` exactly when the frame emitted a repetition-completed event
(the `analyzeBiomechanics` call). -/
def stepVote (s : CoachState) (detected : Phase) (t : ℤ) : CoachState × Bool :=
  let ph := pushCapped 6 s.phaseHistory detected
  match stableAfter s detected with
  | some stable =>
    if s.confirmedPhase = Phase.bottom ∧ stable = Phase.top ∧
        800 < t - s.lastRepTime then
      ({ s with phaseHistory := ph, repCount := s.repCount + 1,
                confirmedPhase := stable, lastRepTime := t }, true)
    else if s.confirmedPhase ≠ stable then
      ({ s with phaseHistory := ph, confirmedPhase := stable }, false)
    else ({ s with phaseHistory := ph }, false)
  | none => ({ s with phaseHistory := ph }, false)

/-- Process a list of frames, each given by its raw detected phase and
its timestamp. -/
def runFrames (s : CoachState) (frames : List (Phase × ℤ)) : CoachState :=
  frames.foldl (fun st f => (stepVote st f.1 f.2).1) s

/-- The `endSession` handler: clears both buffers and resets the count,
the confirmed phase and the last-rep timestamp. -/
def endSession (_s : CoachState) : CoachState :=
  { repCount := 0, confirmedPhase := Phase.standing, lastRepTime := 0,
    phaseHistory := [], hipHistory := [] }

/-! ## Concrete inputs used by witnesses and counterexamples -/

/-- A synthetic frame prefix that drives the state machine through one
full repetition: four `bottom` votes lock `confirmedPhase = bottom`,
three `top` votes complete the first repetition at time 1000 ms, and
three `bottom` votes plus two `top` votes set up the second completion
(which the next `top` vote will trigger). -/
def c1Start : List (Phase × ℤ) :=
  [(Phase.bottom, 0), (Phase.bottom, 0), (Phase.bottom, 0), (Phase.bottom, 0),
   (Phase.top, 0), (Phase.top, 0), (Phase.top, 1000),
   (Phase.bottom, 0), (Phase.bottom, 0), (Phase.bottom, 0),
   (Phase.top, 0), (Phase.top, 0)]

/-- The sequence `c1Start` followed by the final `top` vote at time `t2`: a frame
sequence whose two `bottom → top` completion transitions occur at times
1000 and `t2`. -/
def c1Frames (t2 : ℤ) : List (Phase × ℤ) := c1Start ++ [(Phase.top, t2)]

/-- The state reached after `c1Start`: one repetition counted at time
1000, `confirmedPhase = bottom`, vote buffer primed so that one more
`top` vote yields a stable `top`. -/
def c1MidState : CoachState :=
  { repCount := 1, confirmedPhase := Phase.bottom, lastRepTime := 1000,
    phaseHistory := [Phase.top, Phase.bottom, Phase.bottom, Phase.bottom,
                     Phase.top, Phase.top],
    hipHistory := [] }

/-- A landmark frame whose hips (indices 23 and 24) sit at height
`y = 0` (top of the frame, so the `hipY > 0.6` part of the bottom
condition is false) and whose other landmarks are absent. -/
def lmHips : List (Option Landmark) :=
  List.replicate 23 none ++
    [some { x := 0, y := 0, z := 0 }, some { x := 0, y := 0, z := 0 }]

/-- A landmark frame carrying shoulders (indices 11 and 12) and hips
(indices 23 and 24), all at height `y = 0` so that neither extremum
condition can hold. -/
def lmShouldersHips : List (Option Landmark) :=
  List.replicate 11 none ++
    [some { x := 0, y := 0, z := 0 }, some { x := 0, y := 0, z := 0 }] ++
    List.replicate 10 none ++
    [some { x := 0, y := 0, z := 0 }, some { x := 0, y := 0, z := 0 }]

/-! ## Helper lemmas about the state machine -/

/-- Each frame either leaves the repetition count alone, or performs the
guarded increment: confirmed phase `bottom`, stable phase `top`, and
strictly more than 800 ms since the last counted repetition. -/
lemma stepVote_count_cases (s : CoachState) (d : Phase) (t : ℤ) :
    ((stepVote s d t).1.repCount = s.repCount ∧ (stepVote s d t).2 = false) ∨
      ((stepVote s d t).1.repCount = s.repCount + 1 ∧ (stepVote s d t).2 = true ∧
        s.confirmedPhase = Phase.bottom ∧ stableAfter s d = some Phase.top ∧
        800 < t - s.lastRepTime ∧ (stepVote s d t).1.lastRepTime = t) := by
  unfold stepVote
  cases h : stableAfter s d with
  | none => left; exact ⟨rfl, rfl⟩
  | some stable =>
    dsimp only
    split_ifs with h1 h2
    · right
      obtain ⟨hb, ht, hel⟩ := h1
      subst ht
      exact ⟨rfl, rfl, hb, rfl, hel, rfl⟩
    · left; exact ⟨rfl, rfl⟩
    · left; exact ⟨rfl, rfl⟩

/-- A frame with no stable phase changes none of the counter fields and
emits no event. -/
lemma stepVote_no_stable (s : CoachState) (d : Phase) (t : ℤ)
    (h : stableAfter s d = none) :
    (stepVote s d t).1.confirmedPhase = s.confirmedPhase ∧
      (stepVote s d t).1.repCount = s.repCount ∧
      (stepVote s d t).1.lastRepTime = s.lastRepTime ∧
      (stepVote s d t).2 = false := by
  unfold stepVote
  rw [h]
  exact ⟨rfl, rfl, rfl, rfl⟩

/-- For the rowing exercise kind, `detectExercisePhase` falls through to
the `default` branch of the `switch` and always reports `standing`. -/
lemma rowing_always_standing (landmarks : List (Option Landmark)) (hist : List ℚ) :
    detectExercisePhase landmarks hist ExerciseType.ROWING =
      Except.ok Phase.standing := by
  unfold detectExercisePhase
  split_ifs <;> rfl

/-! ## Claim theorems -/

/-- C2: a transition of the confirmed phase other than `bottom → top`
(in particular `top → bottom`), however stable the new phase, never
increments the repetition count: whenever a frame is not a
`confirmedPhase = bottom` / `stablePhase = top` completion edge, the
count is unchanged. -/
theorem claim_C2_directionality (s : CoachState) (d : Phase) (t : ℤ)
    (h : ¬(s.confirmedPhase = Phase.bottom ∧ stableAfter s d = some Phase.top)) :
    (stepVote s d t).1.repCount = s.repCount := by
  rcases stepVote_count_cases s d t with ⟨h0, -⟩ | ⟨-, -, hb, hs, -⟩
  · exact h0
  · exact absurd ⟨hb, hs⟩ h

/-- Witness for C2: a frame whose stable phase is `bottom` while the
confirmed phase is `top` (a `top → bottom` transition) leaves the count
at 3. -/
theorem claim_C2_directionality_witness :
    (stepVote
        { repCount := 3, confirmedPhase := Phase.top, lastRepTime := 0,
          phaseHistory := [Phase.bottom, Phase.bottom, Phase.bottom, Phase.bottom],
          hipHistory := [] }
        Phase.bottom 5000).1.repCount = 3 :=
  claim_C2_directionality
    { repCount := 3, confirmedPhase := Phase.top, lastRepTime := 0,
      phaseHistory := [Phase.bottom, Phase.bottom, Phase.bottom, Phase.bottom],
      hipHistory := [] }
    Phase.bottom 5000 (by decide)

/-- C4: on a frame with no stable phase (no candidate reaching a tally
of 3 among the last 5 votes, or a vote buffer still shorter than 4), the
confirmed phase, the repetition count and the last-rep timestamp are all
unchanged and no repetition-completed event is emitted. -/
theorem claim_C4_no_stable_noop (s : CoachState) (d : Phase) (t : ℤ)
    (h : stableAfter s d = none) :
    (stepVote s d t).1.confirmedPhase = s.confirmedPhase ∧
      (stepVote s d t).1.repCount = s.repCount ∧
      (stepVote s d t).1.lastRepTime = s.lastRepTime ∧
      (stepVote s d t).2 = false :=
  stepVote_no_stable s d t h

/-- Witness for C4: the very first frame (vote buffer of size 1) is a
no-op on the counter fields. -/
theorem claim_C4_no_stable_noop_witness :
    (stepVote initState Phase.bottom 0).1.confirmedPhase = Phase.standing ∧
      (stepVote initState Phase.bottom 0).1.repCount = 0 ∧
      (stepVote initState Phase.bottom 0).1.lastRepTime = 0 ∧
      (stepVote initState Phase.bottom 0).2 = false :=
  claim_C4_no_stable_noop initState Phase.bottom 0 (by decide)

/-- C8: with fewer than 5 history samples, the raw per-frame phase is
`standing`, for every landmark frame and every exercise kind. -/
theorem claim_C8_startup_standing (landmarks : List (Option Landmark))
    (hist : List ℚ) (ex : ExerciseType) (h : hist.length < 5) :
    detectExercisePhase landmarks hist ex = Except.ok Phase.standing := by
  unfold detectExercisePhase
  rw [if_pos h]

/-- Witness for C8: an empty history with an empty landmark frame yields
`standing` for the squat. -/
theorem claim_C8_startup_standing_witness :
    detectExercisePhase [] [] ExerciseType.SQUAT = Except.ok Phase.standing :=
  claim_C8_startup_standing [] [] ExerciseType.SQUAT (by decide)

/-- C9 counterexample: the rowing claim asserts the existence of
histories (≥ 5 samples) and landmark frames on which the classifier
returns different (elbow-dependent) phases; in the code the `ROWING`
kind falls through to the `default` branch, so no two inputs can ever
produce different phases. -/
theorem claim_C9_counterexample :
    ¬ ∃ (lm1 lm2 : List (Option Landmark)) (hist : List ℚ) (p1 p2 : Phase),
        5 ≤ hist.length ∧
        detectExercisePhase lm1 hist ExerciseType.ROWING = Except.ok p1 ∧
        detectExercisePhase lm2 hist ExerciseType.ROWING = Except.ok p2 ∧
        p1 ≠ p2 := by
  rintro ⟨lm1, lm2, hist, p1, p2, -, h1, h2, hne⟩
  rw [rowing_always_standing] at h1 h2
  obtain rfl : Phase.standing = p1 := Except.ok.inj h1
  obtain rfl : Phase.standing = p2 := Except.ok.inj h2
  exact hne rfl

/-- C9 amended: for the rowing exercise kind the classifier ignores the
landmarks and the history values entirely (`ROWING` is not one of the
`switch` cases) and always reports `standing`. -/
theorem claim_C9_amended_rowing_standing (landmarks : List (Option Landmark))
    (hist : List ℚ) :
    detectExercisePhase landmarks hist ExerciseType.ROWING =
      Except.ok Phase.standing :=
  rowing_always_standing landmarks hist

/-- C10: within a session each processed frame either leaves the
repetition count unchanged or increments it by exactly 1, and the
explicit session reset returns the count to 0, the confirmed phase to
`standing`, zeroes the last-rep timestamp and clears both buffers. -/
theorem claim_C10_monotone_and_reset :
    (∀ (s : CoachState) (d : Phase) (t : ℤ),
        (stepVote s d t).1.repCount = s.repCount ∨
          (stepVote s d t).1.repCount = s.repCount + 1) ∧
      ∀ s : CoachState,
        (endSession s).repCount = 0 ∧
          (endSession s).confirmedPhase = Phase.standing ∧
          (endSession s).lastRepTime = 0 ∧
          (endSession s).phaseHistory = [] ∧
          (endSession s).hipHistory = [] := by
  constructor
  · intro s d t
    rcases stepVote_count_cases s d t with ⟨h, -⟩ | ⟨h, -⟩
    · exact Or.inl h
    · exact Or.inr h
  · intro s
    exact ⟨rfl, rfl, rfl, rfl, rfl⟩

/-- C5, evaluated at the failing input: on a frame missing the landmarks
used for `backAngle` (here the empty landmark list, where
`landmarks[11]` is `undefined`), `getJointAngles` throws a `TypeError`
from `landmarks[11].y` instead of degrading, contradicting the
"must not throw" contract. -/
theorem claim_C5_backangle_throws :
    getJointAngles [] = Except.error "TypeError" := rfl

set_option maxRecDepth 4000 in
/-- C1 counterexample: in the synthetic sequence `c1Frames 1800` the two
`bottom → top` completion transitions happen at times 1000 and 1800 —
exactly 800 ms apart, so by the claim ("spaced ≥800 ms apart ⇒ both are
counted") both should count; the code's strict `> 800` debounce counts
only one.  At 801 ms spacing (`c1Frames 1801`) both count, confirming
that both transitions are genuine completion edges. -/
theorem claim_C1_counterexample :
    (runFrames initState (c1Frames 1800)).repCount = 1 ∧
      (runFrames initState (c1Frames 1801)).repCount = 2 := by
  exact ⟨by decide, by decide⟩

/-! ## The stable-phase characterization (C3) -/

/-- The last-`n` slice never holds more than `n` elements. -/
lemma lastN_length_le (n : ℕ) (l : List α) : (lastN n l).length ≤ n := by
  unfold lastN
  rw [List.length_drop]
  omega

/-- Membership in the first-occurrence fold underlying `entriesOrder`. -/
lemma mem_foldl_entries (l : List Phase) (x : Phase) : ∀ acc : List Phase,
    (x ∈ l.foldl (fun acc p => if p ∈ acc then acc else acc ++ [p]) acc ↔
      x ∈ acc ∨ x ∈ l) := by
  induction l with
  | nil => intro acc; simp
  | cons a l ih =>
    intro acc
    rw [List.foldl_cons, ih]
    by_cases h : a ∈ acc
    · rw [if_pos h]
      constructor
      · rintro (hx | hx)
        · exact Or.inl hx
        · exact Or.inr (List.mem_cons_of_mem _ hx)
      · rintro (hx | hx)
        · exact Or.inl hx
        · rcases List.mem_cons.mp hx with rfl | hx
          · exact Or.inl h
          · exact Or.inr hx
    · rw [if_neg h]
      simp only [List.mem_append, List.mem_singleton, List.mem_cons]
      tauto

/-- The `Object.entries` key list holds exactly the phases that occur in
the tallied slice. -/
lemma mem_entriesOrder {x : Phase} {l : List Phase} :
    x ∈ entriesOrder l ↔ x ∈ l := by
  unfold entriesOrder
  rw [mem_foldl_entries]
  simp

/-- Two distinct phases cannot each occupy more than the slice: the sum
of their tallies is bounded by its length. -/
lemma count_pair_le_length {p q : Phase} (h : p ≠ q) :
    ∀ l : List Phase, l.count p + l.count q ≤ l.length := by
  intro l
  induction l with
  | nil => simp
  | cons a l ih =>
    simp only [List.count_cons, List.length_cons, beq_iff_eq]
    split_ifs with h1 h2
    · exact absurd (h1.symm.trans h2) h
    · omega
    · omega
    · omega

/-- The `find?` scan returns the unique element of a list satisfying a predicate. -/
lemma find?_eq_some_of_unique {l : List Phase} {f : Phase → Bool} {a : Phase}
    (ha : a ∈ l) (hfa : f a = true)
    (huniq : ∀ b ∈ l, f b = true → b = a) :
    l.find? f = some a := by
  induction l with
  | nil => cases ha
  | cons x l ih =>
    by_cases hx : f x = true
    · have hxa : x = a := huniq x (List.mem_cons_self x l) hx
      subst hxa
      rw [List.find?_cons_of_pos _ hx]
    · have hxa : x ≠ a := fun he => hx (he ▸ hfa)
      have ha' : a ∈ l := by
        rcases List.mem_cons.mp ha with rfl | h'
        · exact absurd rfl hxa
        · exact h'
      rw [List.find?_cons_of_neg _ hx]
      exact ih ha' fun b hb hfb => huniq b (List.mem_cons_of_mem _ hb) hfb

/-- C3: on a frame where the vote buffer holds at least 4 samples, a
phase is the stable phase exactly when it is `bottom` or `top` and
occurs at least 3 times among the last 5 votes (so `ascending` /
`descending` are never confirmed); in particular
`{bottom, bottom, bottom, ascending, ascending}` stabilizes to `bottom`
and `{bottom, bottom, top, top, ascending}` yields no stable phase. -/
theorem claim_C3_stable_iff :
    (∀ (ph : List Phase) (p : Phase), 4 ≤ ph.length →
        (stableOf (lastN 5 ph) = some p ↔
          (p = Phase.bottom ∨ p = Phase.top) ∧ 3 ≤ (lastN 5 ph).count p)) ∧
      stableOf [Phase.bottom, Phase.bottom, Phase.bottom, Phase.ascending,
          Phase.ascending] = some Phase.bottom ∧
      stableOf [Phase.bottom, Phase.bottom, Phase.top, Phase.top,
          Phase.ascending] = none := by
  refine ⟨?_, by decide, by decide⟩
  intro ph p _h4
  have hlen : (lastN 5 ph).length ≤ 5 := lastN_length_le 5 ph
  constructor
  · intro h
    unfold stableOf at h
    have hmem := List.mem_of_find?_eq_some h
    have hpred := List.find?_some h
    rw [List.mem_filter] at hmem
    have hkey := of_decide_eq_true hmem.2
    exact ⟨by tauto, of_decide_eq_true hpred⟩
  · rintro ⟨hp, hc⟩
    unfold stableOf
    apply find?_eq_some_of_unique
    · rw [List.mem_filter]
      refine ⟨mem_entriesOrder.mpr ?_, decide_eq_true (by tauto)⟩
      by_contra hnm
      rw [List.count_eq_zero_of_not_mem hnm] at hc
      omega
    · exact decide_eq_true hc
    · intro b hb hfb
      rw [List.mem_filter] at hb
      have hbc := of_decide_eq_true hfb
      by_contra hne
      have hsum := count_pair_le_length hne (lastN 5 ph)
      omega

/-- Witness for C3: a buffer of four `bottom` votes stabilizes to
`bottom`. -/
theorem claim_C3_stable_iff_witness :
    stableOf (lastN 5 [Phase.bottom, Phase.bottom, Phase.bottom, Phase.bottom]) =
        some Phase.bottom ↔
      (Phase.bottom = Phase.bottom ∨ Phase.bottom = Phase.top) ∧
        3 ≤ (lastN 5 [Phase.bottom, Phase.bottom, Phase.bottom,
              Phase.bottom]).count Phase.bottom :=
  claim_C3_stable_iff.1 [Phase.bottom, Phase.bottom, Phase.bottom, Phase.bottom]
    Phase.bottom (by decide)

/-! ## The velocity rule of the raw classifier (C7) -/

/-- With at least `n` samples the last-`n` slice holds exactly `n`. -/
lemma lastN_length_of_le {n : ℕ} {l : List α} (h : n ≤ l.length) :
    (lastN n l).length = n := by
  unfold lastN
  rw [List.length_drop]
  omega

/-- On a 5-sample history the average velocity is (newest − oldest)/5. -/
lemma avgVelocityOf_five (a b c d e : ℚ) :
    avgVelocityOf [a, b, c, d, e] = (e - a) / 5 := by
  show (e - a) / ((5 : ℕ) : ℚ) = (e - a) / 5
  norm_num

/-- C7 counterexample: with history `[0, 0, 0, 0, 1/200]` the average
velocity is `1/1000`, strictly positive (and the pause-extremum
condition fails because `|1/1000| < 1/1000` is false), yet the squat
classifier reports `ascending`, not the `descending` that "positive
velocity ⇒ descending" demands. -/
theorem claim_C7_counterexample :
    0 < avgVelocityOf [0, 0, 0, 0, 1/200] ∧
      detectExercisePhase lmHips [0, 0, 0, 0, 1/200] ExerciseType.SQUAT =
        Except.ok Phase.ascending := by
  have hv : avgVelocityOf [0, 0, 0, 0, 1/200] = 1/1000 := by
    rw [avgVelocityOf_five]
    norm_num
  constructor
  · rw [hv]
    norm_num
  · unfold detectExercisePhase
    rw [if_neg (by norm_num)]
    dsimp only
    rw [show getLm lmHips 23 = some { x := 0, y := 0, z := 0 } from rfl,
      show getLm lmHips 24 = some { x := 0, y := 0, z := 0 } from rfl]
    dsimp only
    rw [hv]
    rw [if_neg (by norm_num), if_neg (by norm_num)]

/-- C7 amended: for every history with at least 5 samples the classifier
computes the average velocity as (newest − oldest) / 5 over the last 5
samples, and whenever the pause-extremum condition fails, the hip- and
shoulder-tracked exercises report `descending` exactly when that
velocity exceeds the `0.002` threshold and `ascending` otherwise (so the
choice follows the threshold, not the sign: a positive velocity at or
below `0.002` yields `ascending`). -/
theorem claim_C7_amended (lms : List (Option Landmark)) (hist : List ℚ)
    (l23 l24 l11 l12 : Landmark) (h5 : 5 ≤ hist.length)
    (h23 : getLm lms 23 = some l23) (h24 : getLm lms 24 = some l24)
    (h11 : getLm lms 11 = some l11) (h12 : getLm lms 12 = some l12) :
    avgVelocityOf hist =
        ((lastN 5 hist).getLastD 0 - (lastN 5 hist).headD 0) / 5 ∧
      (¬(|avgVelocityOf hist| < 1/1000 ∧ (l23.y + l24.y) / 2 > 3/5) →
        ∀ ex ∈ [ExerciseType.SQUAT, ExerciseType.DEADLIFT,
            ExerciseType.KNEE_ELEVATION],
          detectExercisePhase lms hist ex =
            Except.ok
              (if avgVelocityOf hist > 1/500 then Phase.descending
               else Phase.ascending)) ∧
      (¬(|avgVelocityOf hist| < 1/1000 ∧ (l11.y + l12.y) / 2 > 1/2) →
        ∀ ex ∈ [ExerciseType.PUSH_UP, ExerciseType.BENCH_PRESS],
          detectExercisePhase lms hist ex =
            Except.ok
              (if avgVelocityOf hist > 1/500 then Phase.descending
               else Phase.ascending)) := by
  refine ⟨?_, ?_, ?_⟩
  · unfold avgVelocityOf
    dsimp only
    rw [lastN_length_of_le h5]
    norm_num
  · intro hext ex hex
    fin_cases hex <;>
    · unfold detectExercisePhase
      rw [if_neg (not_lt.mpr h5)]
      dsimp only
      rw [h23, h24]
      dsimp only
      rw [if_neg hext]
      split_ifs <;> rfl
  · intro hext ex hex
    fin_cases hex <;>
    · unfold detectExercisePhase
      rw [if_neg (not_lt.mpr h5)]
      dsimp only
      rw [h11, h12]
      dsimp only
      rw [if_neg hext]
      split_ifs <;> rfl

/-- Witness for C7 (amended): a fast positive velocity (`1/50`, above
the `0.002` threshold) yields `descending` for both a hip-tracked and a
shoulder-tracked exercise. -/
theorem claim_C7_amended_witness :
    detectExercisePhase lmShouldersHips [0, 0, 0, 0, 1/10] ExerciseType.SQUAT =
        Except.ok Phase.descending ∧
      detectExercisePhase lmShouldersHips [0, 0, 0, 0, 1/10]
          ExerciseType.PUSH_UP = Except.ok Phase.descending := by
  have hv : avgVelocityOf [0, 0, 0, 0, 1/10] = 1/50 := by
    rw [avgVelocityOf_five]
    norm_num
  have h := claim_C7_amended lmShouldersHips [0, 0, 0, 0, 1/10]
    { x := 0, y := 0, z := 0 } { x := 0, y := 0, z := 0 }
    { x := 0, y := 0, z := 0 } { x := 0, y := 0, z := 0 }
    (by norm_num) rfl rfl rfl rfl
  constructor
  · have hs := h.2.1 (fun hc => absurd hc.2 (by norm_num))
      ExerciseType.SQUAT (by norm_num)
    rw [hs, hv]
    rw [if_pos (by norm_num)]
  · have hs := h.2.2 (fun hc => absurd hc.2 (by norm_num))
      ExerciseType.PUSH_UP (by norm_num)
    rw [hs, hv]
    rw [if_pos (by norm_num)]

/-! ## The angle range invariant (C6) -/

/-- The `Math.atan2` model returns an angle in `(-π, π]`. -/
lemma atan2_bounds (y x : ℝ) : -Real.pi < atan2 y x ∧ atan2 y x ≤ Real.pi :=
  ⟨Complex.neg_pi_lt_arg _, Complex.arg_le_pi _⟩

/-- Rounding keeps nonnegative values nonnegative. -/
lemma jsRound_nonneg {x : ℝ} (hx : 0 ≤ x) : 0 ≤ jsRound x := by
  unfold jsRound
  have h : (0 : ℤ) ≤ ⌊x + 1/2⌋ := Int.floor_nonneg.mpr (by linarith)
  exact_mod_cast h

/-- Rounding keeps values at most 180 at most 180 (the rounded value
is an integer below 180.5). -/
lemma jsRound_le_180 {x : ℝ} (hx : x ≤ 180) : jsRound x ≤ 180 := by
  unfold jsRound
  have h1 : (⌊x + 1/2⌋ : ℝ) ≤ x + 1/2 := Int.floor_le _
  have h2 : ⌊x + 1/2⌋ < 181 := by
    have h2' : (⌊x + 1/2⌋ : ℝ) < 181 := by linarith
    exact_mod_cast h2'
  have h3 : ⌊x + 1/2⌋ ≤ 180 := by omega
  exact_mod_cast h3

/-- The degree conversion of a difference of two `atan2` values, folded
by `360 − angle` when above 180, lies in `[0, 180]`. -/
lemma deg_fold_bounds {t1 t2 : ℝ} (h1 : -Real.pi < t1) (h1' : t1 ≤ Real.pi)
    (h2 : -Real.pi < t2) (h2' : t2 ≤ Real.pi) :
    0 ≤ (if 180 < |(t1 - t2) * 180 / Real.pi| then
            360 - |(t1 - t2) * 180 / Real.pi|
         else |(t1 - t2) * 180 / Real.pi|) ∧
      (if 180 < |(t1 - t2) * 180 / Real.pi| then
          360 - |(t1 - t2) * 180 / Real.pi|
       else |(t1 - t2) * 180 / Real.pi|) ≤ 180 := by
  have hpi := Real.pi_pos
  have habs : |(t1 - t2) * 180 / Real.pi| < 360 := by
    rw [abs_div, abs_mul, abs_of_pos hpi,
      abs_of_pos (show (0 : ℝ) < 180 by norm_num)]
    rw [div_lt_iff₀ hpi]
    have hd : |t1 - t2| < 2 * Real.pi := by
      rw [abs_lt]
      constructor <;> linarith
    linarith
  have hnn : 0 ≤ |(t1 - t2) * 180 / Real.pi| := abs_nonneg _
  by_cases hc : 180 < |(t1 - t2) * 180 / Real.pi|
  · rw [if_pos hc]
    constructor <;> linarith
  · rw [if_neg hc]
    push_neg at hc
    exact ⟨hnn, hc⟩

/-- C6: for any three present landmarks the joint angle computed by
`calculateAngle` lies in `[0, 180]`: the absolute `atan2` difference in
degrees, folded by `360 − angle` when above 180 and then rounded, never
leaves that range. -/
theorem claim_C6_angle_range (a b c : Landmark) :
    0 ≤ calculateAngle (some a) (some b) (some c) ∧
      calculateAngle (some a) (some b) (some c) ≤ 180 := by
  have h1 := atan2_bounds ((c.y : ℝ) - (b.y : ℝ)) ((c.x : ℝ) - (b.x : ℝ))
  have h2 := atan2_bounds ((a.y : ℝ) - (b.y : ℝ)) ((a.x : ℝ) - (b.x : ℝ))
  have hb := deg_fold_bounds h1.1 h1.2 h2.1 h2.2
  exact ⟨jsRound_nonneg hb.1, jsRound_le_180 hb.2⟩

/-! ## The inter-repetition debounce (C1) -/

/-- C1 amended: the repetition count is incremented only on a
`bottom → top` completion transition with *strictly more than* 800 ms
elapsed since the last counted repetition; consequently, in the
synthetic two-completion sequence `c1Frames t2` (completions at times
1000 and `t2`), only one repetition is counted when the completions are
at most 800 ms apart and both are counted when they are more than
800 ms apart. -/
theorem claim_C1_amended :
    (∀ (s : CoachState) (d : Phase) (t : ℤ),
        (stepVote s d t).1.repCount ≠ s.repCount →
          s.confirmedPhase = Phase.bottom ∧ stableAfter s d = some Phase.top ∧
            800 < t - s.lastRepTime) ∧
      ∀ t2 : ℤ,
        (t2 - 1000 ≤ 800 → (runFrames initState (c1Frames t2)).repCount = 1) ∧
        (800 < t2 - 1000 → (runFrames initState (c1Frames t2)).repCount = 2) := by
  constructor
  · intro s d t hne
    rcases stepVote_count_cases s d t with ⟨h, -⟩ | ⟨-, -, hb, hs, hel, -⟩
    · exact absurd h hne
    · exact ⟨hb, hs, hel⟩
  · intro t2
    have hmid : runFrames initState c1Start = c1MidState := by decide
    unfold runFrames at hmid
    have hrun : runFrames initState (c1Frames t2) =
        (stepVote c1MidState Phase.top t2).1 := by
      unfold c1Frames runFrames
      rw [List.foldl_append, hmid]
      rfl
    rw [hrun]
    have hst : stableAfter c1MidState Phase.top = some Phase.top := by decide
    unfold stepVote
    rw [hst]
    dsimp only
    constructor
    · intro hle
      rw [if_neg
        (fun hcond =>
          absurd (show (800 : ℤ) < t2 - 1000 from hcond.2.2) (by omega))]
      split_ifs <;> rfl
    · intro hgt
      rw [if_pos ⟨rfl, rfl, hgt⟩]
      rfl

/-- Witness for C1 (amended): a counted frame has strictly more than
800 ms of elapsed time; completions 500 ms apart count once and
completions 2000 ms apart count twice. -/
theorem claim_C1_amended_witness :
    800 < (1000 : ℤ) - 0 ∧
      (runFrames initState (c1Frames 1500)).repCount = 1 ∧
      (runFrames initState (c1Frames 3000)).repCount = 2 := by
  refine ⟨?_, ?_, ?_⟩
  · exact (claim_C1_amended.1
      { repCount := 0, confirmedPhase := Phase.bottom, lastRepTime := 0,
        phaseHistory := [Phase.bottom, Phase.bottom, Phase.top, Phase.top],
        hipHistory := [] }
      Phase.top 1000 (by decide)).2.2
  · exact (claim_C1_amended.2 1500).1 (by decide)
  · exact (claim_C1_amended.2 3000).2 (by decide)
